import Mathlib

/-!
Verification of the session/authentication lifecycle of the dabba app
frontend: the `AuthContext` session manager
(`src/frontend/src/context/AuthContext.tsx`) and the API client's
credential-attachment interceptor (`src/frontend/app/services/api.ts`).

The embedding is a shallow one.  The single AsyncStorage key
`'authToken'` is modelled as an `Option String` cell (`none` = key
absent); the React state triple `(user, token, isLoading)` together with
that cell forms `SessionState`.  Each async operation of the source is a
pure function from the pre-state and the environment's response
(HTTP result) to the post-state, matching the sequential `await`
structure of the TypeScript.  JavaScript string truthiness
(`if (token)`, `data.phone || '0000000000'`) is modelled by an explicit
emptiness test, since the tested values are `string | null`.
-/

namespace Dabba

/-- The `User` record of `AuthContext.tsx` (identity fields plus a role
discriminator); `phone?`/`address?` are optional in the interface. -/
structure User where
  id : String
  name : String
  email : String
  phone : Option String
  address : Option String
  role : String
deriving Repr, DecidableEq

/-- Combined state: the three React state cells of `AuthProvider`
(`user`, `token`, `isLoading`) plus `store`, the value persisted in
AsyncStorage under the key `'authToken'` (`none` when the key is
absent). -/
structure SessionState where
  user : Option User
  token : Option String
  isLoading : Bool
  store : Option String
deriving Repr, DecidableEq

/-- An axios error as far as the auth code inspects it:
`error.response?.data?.detail`, which may be missing (`none`) at any of
the optional-chaining steps. -/
structure ApiError where
  responseDetail : Option String
deriving Repr, DecidableEq

/-- The result shape of `login`/`register`:
`{ success: boolean; error?: string }`. -/
structure AuthResult where
  success : Bool
  error : Option String
deriving Repr, DecidableEq

/-- State of a fresh process before `loadStoredAuth` runs: the
`useState` initialisers give `user = null`, `token = null`,
`isLoading = true`; the persisted cell holds whatever an earlier
process left there. -/
def initState (stored : Option String) : SessionState :=
  { user := none, token := none, isLoading := true, store := stored }

/-- `error.response?.data?.detail || fallback`: the detail string when
present and truthy (non-empty), else the fallback. -/
def extractMessage (detail : Option String) (fallback : String) : String :=
  match detail with
  | some d => if d = "" then fallback else d
  | none => fallback

/-- The request interceptor of `api.ts`: read the `'authToken'` cell
and, when the value is truthy, set `config.headers.Authorization` to
`Bearer <token>`; otherwise leave the header unset (`none`). -/
def attachAuthHeader (stored : Option String) : Option String :=
  match stored with
  | some token => if token = "" then none else some ("Bearer " ++ token)
  | none => none

/-- The Authorization header an outbound request carries in state `s`:
the interceptor reads only the persisted cell `s.store`, never the
in-memory `s.token`. -/
def requestAuthHeader (s : SessionState) : Option String :=
  attachAuthHeader s.store

/-- Result of `loadStoredAuth`, instrumented with whether the line
`await authAPI.getMe()` was reached. -/
structure HydrateOutcome where
  state : SessionState
  calledGetMe : Bool
deriving Repr, DecidableEq

/-- `loadStoredAuth` of `AuthContext.tsx`.  Reads the stored token; when
truthy, sets the in-memory token and calls `/auth/me`
(`getMeResult` is that call's outcome).  On success the returned record
becomes `user`; on any error the catch block removes the persisted key
(but issues no `setToken(null)`, so the in-memory token keeps the
stored value).  The `finally` block sets `isLoading` to `false` on
every path, and no error escapes the function. -/
def loadStoredAuth (s : SessionState) (getMeResult : Except ApiError User) :
    HydrateOutcome :=
  match s.store with
  | none => ⟨{ s with isLoading := false }, false⟩
  | some storedToken =>
    if storedToken = "" then
      ⟨{ s with isLoading := false }, false⟩
    else
      match getMeResult with
      | .ok u =>
        ⟨{ s with token := some storedToken, user := some u,
                  isLoading := false }, true⟩
      | .error _ =>
        ⟨{ s with token := some storedToken, store := none,
                  isLoading := false }, true⟩

/-- `login` of `AuthContext.tsx`.  `resp` is the outcome of
`authAPI.login({email, password})`; a successful response carries
`{token, user}`.  On success the token is persisted, then the two state
cells are set; on error the extracted message (fallback
`'Login failed'`) is returned and nothing is touched. -/
def login (s : SessionState) (email password : String)
    (resp : Except ApiError (String × User)) : SessionState × AuthResult :=
  match resp with
  | .ok (authToken, userData) =>
    ({ s with store := some authToken, token := some authToken,
              user := some userData },
     { success := true, error := none })
  | .error e =>
    (s, { success := false,
          error := some (extractMessage e.responseDetail "Login failed") })

/-- The argument record of `register` in `AuthContext.tsx`:
`{name, email, password, phone?, address?, role?}`. -/
structure RegisterData where
  name : String
  email : String
  password : String
  phone : Option String
  address : Option String
  role : Option String
deriving Repr, DecidableEq

/-- The body `register` hands to `authAPI.register`: the caller's data
spread, with `phone: data.phone || '0000000000'`, so the body's phone is
always a present, non-empty string. -/
structure RegisterRequestBody where
  name : String
  email : String
  password : String
  phone : String
  address : Option String
  role : Option String
deriving Repr, DecidableEq

/-- Builds the outbound `/auth/register` body:
`{...data, phone: data.phone || '0000000000'}`. -/
def registerBody (d : RegisterData) : RegisterRequestBody :=
  { name := d.name, email := d.email, password := d.password,
    phone :=
      match d.phone with
      | some p => if p = "" then "0000000000" else p
      | none => "0000000000",
    address := d.address, role := d.role }

/-- `register` of `AuthContext.tsx`: same persistence and state updates
as `login` on success, fallback message `'Registration failed'` on
error, state untouched on error. -/
def register (s : SessionState) (d : RegisterData)
    (resp : Except ApiError (String × User)) : SessionState × AuthResult :=
  match resp with
  | .ok (authToken, userData) =>
    ({ s with store := some authToken, token := some authToken,
              user := some userData },
     { success := true, error := none })
  | .error e =>
    (s, { success := false,
          error := some (extractMessage e.responseDetail
            "Registration failed") })

/-- `logout` of `AuthContext.tsx`: remove the persisted key, clear both
in-memory cells. -/
def logout (s : SessionState) : SessionState :=
  { s with store := none, token := none, user := none }

/-- One user-triggered session-manager operation together with the
environment's response to its HTTP call (hydration is not here: the
source runs it exactly once, from the mount effect). -/
inductive UserEvent where
  | loginEv (email password : String) (resp : Except ApiError (String × User))
  | registerEv (d : RegisterData) (resp : Except ApiError (String × User))
  | logoutEv
deriving Repr

/-- Ghost-instrumented step: the `Bool` component records whether the
current in-memory token was validated against `/auth/me` or issued by a
successful `login`/`register` (the "validated" clause of the spec's
invariant). -/
def userStep : SessionState × Bool → UserEvent → SessionState × Bool
  | (s, v), .loginEv em pw r =>
    ((login s em pw r).1, match r with | .ok _ => true | .error _ => v)
  | (s, v), .registerEv d r =>
    ((register s d r).1, match r with | .ok _ => true | .error _ => v)
  | (s, _), .logoutEv => (logout s, false)

/-- A whole post-hydration session: fold the user events over the
state. -/
def runAuth (sv : SessionState × Bool) (evs : List UserEvent) :
    SessionState × Bool :=
  evs.foldl userStep sv

/-- Hydration with the ghost flag: the flag becomes `true` exactly when
a stored truthy token was successfully validated by `/auth/me`. -/
def hydrateGhost (stored : Option String) (r : Except ApiError User) :
    SessionState × Bool :=
  ((loadStoredAuth (initState stored) r).state,
   match stored with
   | none => false
   | some t =>
     if t = "" then false
     else match r with | .ok _ => true | .error _ => false)

/-! Concrete sample values used by the witness theorems. -/

/-- A concrete user, as `/auth/me` or a login response could return. -/
def sampleUser : User :=
  { id := "u1", name := "Sam", email := "s@x.com", phone := none,
    address := none, role := "customer" }

/-- A state whose persisted cell and in-memory token disagree, to probe
which one the interceptor consults. -/
def headerProbeState : SessionState :=
  { user := none, token := some "memoryOnly", isLoading := false,
    store := some "abc123" }

/-- A state whose persisted cell holds the empty string. -/
def emptyTokenState : SessionState :=
  { user := none, token := none, isLoading := false, store := some "" }

/-- The registration fields of the spec's scenario (no phone). -/
def samReg : RegisterData :=
  { name := "Sam", email := "s@x.com", password := "secret1",
    phone := none, address := none, role := some "driver" }

/-! Helper lemmas about the trace semantics. -/

/-- The session invariant of the spec, on ghost-instrumented states:
`user` is present iff `token` is present and validated/just-issued. -/
def sessionInvariant (sv : SessionState × Bool) : Prop :=
  sv.1.user.isSome ↔ (sv.1.token.isSome ∧ sv.2 = true)

/-- Every user-triggered operation preserves the session invariant. -/
theorem userStep_invariant (sv : SessionState × Bool) (e : UserEvent)
    (h : sessionInvariant sv) : sessionInvariant (userStep sv e) := by
  obtain ⟨s, v⟩ := sv
  cases e with
  | loginEv em pw r =>
    cases r with
    | ok p =>
      obtain ⟨t, u⟩ := p
      simp [sessionInvariant, userStep, login]
    | error err => simpa [sessionInvariant, userStep, login] using h
  | registerEv d r =>
    cases r with
    | ok p =>
      obtain ⟨t, u⟩ := p
      simp [sessionInvariant, userStep, register]
    | error err => simpa [sessionInvariant, userStep, register] using h
  | logoutEv => simp [sessionInvariant, userStep, logout]

/-- The invariant is preserved along any list of user events. -/
theorem runAuth_invariant (evs : List UserEvent) (sv : SessionState × Bool)
    (h : sessionInvariant sv) : sessionInvariant (runAuth sv evs) := by
  induction evs generalizing sv with
  | nil => exact h
  | cons e rest ih => exact ih (userStep sv e) (userStep_invariant sv e h)

/-- Hydration establishes the session invariant from a fresh process
state, whatever is stored and whatever `/auth/me` answers. -/
theorem hydrateGhost_invariant (stored : Option String)
    (r : Except ApiError User) : sessionInvariant (hydrateGhost stored r) := by
  cases stored with
  | none => simp [sessionInvariant, hydrateGhost, loadStoredAuth, initState]
  | some t =>
    by_cases ht : t = "" <;> cases r <;>
      simp [sessionInvariant, hydrateGhost, loadStoredAuth, initState, ht]

/-- No user-triggered operation touches `isLoading`. -/
theorem userStep_isLoading (sv : SessionState × Bool) (e : UserEvent) :
    (userStep sv e).1.isLoading = sv.1.isLoading := by
  obtain ⟨s, v⟩ := sv
  cases e with
  | loginEv em pw r =>
    cases r with
    | ok p => obtain ⟨t, u⟩ := p; simp [userStep, login]
    | error err => simp [userStep, login]
  | registerEv d r =>
    cases r with
    | ok p => obtain ⟨t, u⟩ := p; simp [userStep, register]
    | error err => simp [userStep, register]
  | logoutEv => simp [userStep, logout]

/-- Once `isLoading` is `false`, it stays `false` along any event
list. -/
theorem runAuth_isLoading (evs : List UserEvent) (sv : SessionState × Bool)
    (h : sv.1.isLoading = false) : (runAuth sv evs).1.isLoading = false := by
  induction evs generalizing sv with
  | nil => exact h
  | cons e rest ih =>
    exact ih (userStep sv e) ((userStep_isLoading sv e).trans h)

/-- The `finally` block resolves loading on every path of
`loadStoredAuth`. -/
theorem loadStoredAuth_isLoading (s : SessionState)
    (r : Except ApiError User) :
    (loadStoredAuth s r).state.isLoading = false := by
  cases hs : s.store with
  | none => simp [loadStoredAuth, hs]
  | some t => by_cases ht : t = "" <;> cases r <;> simp [loadStoredAuth, hs, ht]

/-! The claims. -/

/-- Claim C1, counterexample: with stored token `"abc123"` and a failed
identity check, `loadStoredAuth` does NOT leave the in-memory token
absent — the catch block only removes the persisted key, it issues no
`setToken(null)`, so the in-memory token still holds `"abc123"`. -/
theorem hydrate_failure_token_not_cleared :
    (loadStoredAuth (initState (some "abc123"))
        (.error { responseDetail := none })).state.token ≠ none := by
  decide

/-- Claim C1 (amended): when a (truthy) token is stored and the identity
check fails with any error, `loadStoredAuth` terminates with the token
deleted from the persistent store, the in-memory user absent and
`isLoading = false`, and no error is surfaced (the function is total by
its type); the in-memory token, however, remains set to the stored
value rather than being cleared. -/
theorem hydrate_failure_clears_store (t : String) (ht : t ≠ "")
    (e : ApiError) :
    (loadStoredAuth (initState (some t)) (.error e)).state.store = none ∧
    (loadStoredAuth (initState (some t)) (.error e)).state.user = none ∧
    (loadStoredAuth (initState (some t)) (.error e)).state.isLoading
      = false ∧
    (loadStoredAuth (initState (some t)) (.error e)).state.token = some t := by
  simp [loadStoredAuth, initState, ht]

/-- Claim C1, witness: the amended statement at stored token `"abc123"`
and an error with no response payload. -/
theorem hydrate_failure_clears_store_check :
    (loadStoredAuth (initState (some "abc123"))
        (.error { responseDetail := none })).state.store = none ∧
    (loadStoredAuth (initState (some "abc123"))
        (.error { responseDetail := none })).state.user = none ∧
    (loadStoredAuth (initState (some "abc123"))
        (.error { responseDetail := none })).state.isLoading = false ∧
    (loadStoredAuth (initState (some "abc123"))
        (.error { responseDetail := none })).state.token = some "abc123" :=
  hydrate_failure_clears_store "abc123" (by decide) { responseDetail := none }

/-- Claim C2: the interceptor computes the Authorization header from the
persisted cell alone (any two states agreeing on the store get the same
header, whatever their in-memory fields); a stored truthy token `t`
yields the header `Bearer t`, and an absent stored token yields no
header. -/
theorem interceptor_reads_store (s : SessionState) :
    (∀ s' : SessionState, s'.store = s.store →
      requestAuthHeader s' = requestAuthHeader s) ∧
    (∀ t, s.store = some t → t ≠ "" →
      requestAuthHeader s = some ("Bearer " ++ t)) ∧
    (s.store = none → requestAuthHeader s = none) := by
  refine ⟨?_, ?_, ?_⟩
  · intro s' hs'
    simp [requestAuthHeader, hs']
  · intro t hs ht
    simp [requestAuthHeader, attachAuthHeader, hs, ht]
  · intro hs
    simp [requestAuthHeader, attachAuthHeader, hs]

/-- Claim C2, witness: in a state whose store holds `"abc123"` while the
in-memory token is a different string, the request carries
`Bearer abc123`. -/
theorem interceptor_reads_store_check :
    requestAuthHeader headerProbeState = some ("Bearer " ++ "abc123") :=
  (interceptor_reads_store headerProbeState).2.1 "abc123" rfl (by decide)

/-- Claim C3: when the login HTTP call fails, the whole state (in-memory
triple and persisted store) is returned unchanged, the result has
`success = false`, its message is the server payload's truthy `detail`
when present, and the generic fallback `"Login failed"` when the payload
carries no detail. -/
theorem login_failure_preserves_state (s : SessionState)
    (email password : String) (e : ApiError) :
    (login s email password (.error e)).1 = s ∧
    (login s email password (.error e)).2.success = false ∧
    (∀ d, e.responseDetail = some d → d ≠ "" →
      (login s email password (.error e)).2.error = some d) ∧
    (e.responseDetail = none →
      (login s email password (.error e)).2.error = some "Login failed") := by
  refine ⟨rfl, rfl, ?_, ?_⟩
  · intro d hd hne
    simp [login, extractMessage, hd, hne]
  · intro hd
    simp [login, extractMessage, hd]

/-- Claim C3, witness: the spec scenario — a 401 whose payload is
`{detail: "Invalid credentials"}` yields
`{success: false, error: "Invalid credentials"}` and leaves the state
exactly as it was. -/
theorem login_failure_preserves_state_check :
    (login (initState none) "a@b.com" "wrongpass"
        (.error { responseDetail := some "Invalid credentials" })).1 =
      initState none ∧
    (login (initState none) "a@b.com" "wrongpass"
        (.error { responseDetail := some "Invalid credentials" })).2.error =
      some "Invalid credentials" :=
  ⟨(login_failure_preserves_state (initState none) "a@b.com" "wrongpass"
      { responseDetail := some "Invalid credentials" }).1,
   (login_failure_preserves_state (initState none) "a@b.com" "wrongpass"
      { responseDetail := some "Invalid credentials" }).2.2.1
     "Invalid credentials" rfl (by decide)⟩

/-- Claim C4: from any state, a request issued right after `logout`
carries no Authorization header, and a request issued right after a
successful `login` that returned the (truthy) token `t` carries
`Bearer t` — no further synchronization, the post-operation state is
consulted directly. -/
theorem logout_login_next_header (s : SessionState)
    (email password t : String) (u : User) (ht : t ≠ "") :
    requestAuthHeader (logout s) = none ∧
    requestAuthHeader (login s email password (.ok (t, u))).1 =
      some ("Bearer " ++ t) := by
  constructor
  · simp [requestAuthHeader, attachAuthHeader, logout]
  · simp [requestAuthHeader, attachAuthHeader, login, ht]

/-- Claim C4, witness: concrete run with old stored token `"old"` and
newly issued token `"newtok"`. -/
theorem logout_login_next_header_check :
    requestAuthHeader (logout (initState (some "old"))) = none ∧
    requestAuthHeader
        (login (initState (some "old")) "a@b.com" "pw"
          (.ok ("newtok", sampleUser))).1 = some ("Bearer " ++ "newtok") :=
  logout_login_next_header (initState (some "old")) "a@b.com" "pw" "newtok"
    sampleUser (by decide)

/-- Claim C5: in every state reachable from process start by hydration
followed by any sequence of `login`/`register`/`logout` operations (with
arbitrary environment responses), the in-memory user is present iff the
in-memory token is present and was validated by `/auth/me` or just
issued by a successful login/register (the ghost flag of the trace
semantics). -/
theorem session_invariant_reachable (stored : Option String)
    (r : Except ApiError User) (evs : List UserEvent) :
    ((runAuth (hydrateGhost stored r) evs).1.user.isSome ↔
      ((runAuth (hydrateGhost stored r) evs).1.token.isSome ∧
        (runAuth (hydrateGhost stored r) evs).2 = true)) :=
  runAuth_invariant evs (hydrateGhost stored r)
    (hydrateGhost_invariant stored r)

/-- Claim C6: `isLoading` is `true` at process start, is `false` as soon
as the hydration attempt resolves (whatever was stored and however
`/auth/me` answered), and remains `false` after any subsequent sequence
of `login`/`register`/`logout` operations. -/
theorem isLoading_lifecycle (stored : Option String)
    (r : Except ApiError User) (evs : List UserEvent) :
    (initState stored).isLoading = true ∧
    (loadStoredAuth (initState stored) r).state.isLoading = false ∧
    (runAuth (hydrateGhost stored r) evs).1.isLoading = false :=
  ⟨rfl, loadStoredAuth_isLoading (initState stored) r,
   runAuth_isLoading evs (hydrateGhost stored r)
     (loadStoredAuth_isLoading (initState stored) r)⟩

/-- Claim C7: when nothing is stored under the token key, hydration
terminates with user and token absent and `isLoading = false`, and the
`/auth/me` call is never issued. -/
theorem hydrate_no_stored_token (r : Except ApiError User) :
    (loadStoredAuth (initState none) r).state.user = none ∧
    (loadStoredAuth (initState none) r).state.token = none ∧
    (loadStoredAuth (initState none) r).state.isLoading = false ∧
    (loadStoredAuth (initState none) r).calledGetMe = false := by
  simp [loadStoredAuth, initState]

/-- Claim C8: with the phone omitted, the outbound register body's phone
equals the fixed placeholder `"0000000000"`, which is non-empty (and the
body's phone field is a plain `String`, so it is never absent); with an
explicit truthy phone the given value is forwarded unchanged. -/
theorem register_phone_placeholder (d : RegisterData) (p : String)
    (hp : p ≠ "") :
    (registerBody { d with phone := none }).phone = "0000000000" ∧
    "0000000000" ≠ "" ∧
    (registerBody { d with phone := some p }).phone = p := by
  refine ⟨?_, by decide, ?_⟩ <;> simp [registerBody, hp]

/-- Claim C8, witness: the spec scenario
`register({name:"Sam", email:"s@x.com", password:"secret1",
role:"driver"})` with no phone, and the same fields with the explicit
phone `"5551234"`. -/
theorem register_phone_placeholder_check :
    (registerBody { samReg with phone := none }).phone = "0000000000" ∧
    "0000000000" ≠ "" ∧
    (registerBody { samReg with phone := some "5551234" }).phone =
      "5551234" :=
  register_phone_placeholder samReg "5551234" (by decide)

/-- Claim C9: when the stored value under the token key is the empty
string, the interceptor's truthiness check fails, so the request carries
no Authorization header — exactly as when the key is absent. -/
theorem empty_token_no_header (s : SessionState) (hs : s.store = some "") :
    requestAuthHeader s = none ∧
    requestAuthHeader s = requestAuthHeader { s with store := none } := by
  constructor
  · simp [requestAuthHeader, attachAuthHeader, hs]
  · simp [requestAuthHeader, attachAuthHeader, hs]

/-- Claim C9, witness: the empty-string-token state sends no header. -/
theorem empty_token_no_header_check :
    requestAuthHeader emptyTokenState = none :=
  (empty_token_no_header emptyTokenState rfl).1

/-- Claim C10: an explicitly empty phone (`""`, not merely omitted) is
also replaced by the placeholder `"0000000000"` in the outbound register
body — `data.phone || '0000000000'` substitutes on any falsy phone. -/
theorem register_empty_phone_placeholder (d : RegisterData)
    (h : d.phone = some "") :
    (registerBody d).phone = "0000000000" := by
  simp [registerBody, h]

/-- Claim C10, witness: the scenario fields with phone `""`. -/
theorem register_empty_phone_placeholder_check :
    (registerBody { samReg with phone := some "" }).phone = "0000000000" :=
  register_empty_phone_placeholder { samReg with phone := some "" } rfl

end Dabba
